import Mathlib

set_option autoImplicit false
set_option maxRecDepth 8000

/-!
Verification of the core logic of the Timezones repository
(`src/timezones.py`): the wall-clock time conversion
`MainWindow._convert_time`, the location directory
(`DEFAULT_KNOWN_LOCATIONS`, `load_known_locations`,
`save_known_locations`, `find_timezone_for_location_text`) and the manual
time-entry parsing (`parse_time_string`).

Times are modelled in whole minutes.  An absolute instant is an `Int`
counting minutes since an arbitrary epoch; a naive (zone-less) local
timestamp is likewise an `Int` of local wall-clock minutes since that
epoch.  The conversion date parameter `todayBase` stands for midnight of
the current UTC date, in epoch minutes.
-/

namespace Timezones

/-- A timezone as used by the conversion code path, modelling a `pytz`
timezone for dates near the conversion date: `stdOffset` is the standard
(non-DST) UTC offset in minutes east, `dstOffset` the offset while
daylight saving is in effect (equal to `stdOffset` for zones without
DST), and `isDstAtUtc u` tells whether DST is in effect at the absolute
instant `u`. -/
structure Timezone where
  stdOffset : Int
  dstOffset : Int
  isDstAtUtc : Int → Bool

/-- UTC offset (minutes east) in effect at absolute instant `u`. -/
def Timezone.offsetAtUtc (tz : Timezone) (u : Int) : Int :=
  if tz.isDstAtUtc u then tz.dstOffset else tz.stdOffset

/-- Conversion of an absolute instant `u` to local wall-clock minutes in
the zone, as performed by `datetime.astimezone` via `tzinfo.fromutc`. -/
def Timezone.fromutc (tz : Timezone) (u : Int) : Int :=
  u + tz.offsetAtUtc u

/-- The `pytz` method `localize(naive, is_dst=False)` (the default used at
line 625 of the source), returning the absolute instant chosen for the
naive wall-clock minutes `n`.  An offset `o` is consistent when the zone
is at offset `o` at the instant `n - o`.  `pytz` picks a consistent
offset when one exists, preferring the standard offset for ambiguous
(fall-back) times, and attaches the standard offset to nonexistent
(spring-forward gap) times. -/
def Timezone.localize (tz : Timezone) (n : Int) : Int :=
  if tz.offsetAtUtc (n - tz.stdOffset) = tz.stdOffset then n - tz.stdOffset
  else if tz.offsetAtUtc (n - tz.dstOffset) = tz.dstOffset then n - tz.dstOffset
  else n - tz.stdOffset

/-- Resolution of a timezone id against the timezone database, as done by
`pytz.timezone`; `none` models `pytz.timezone` raising. -/
def lookupZone (db : List (String × Timezone)) (name : String) : Option Timezone :=
  (db.find? (fun p => p.1 == name)).map (fun p => p.2)

/-- The `hour` field of a datetime whose wall-clock value is `w` epoch
minutes. -/
def hourOf (w : Int) : Nat := (w % 1440).toNat / 60

/-- The `minute` field of a datetime whose wall-clock value is `w` epoch
minutes. -/
def minuteOf (w : Int) : Nat := (w % 60).toNat

/-- `MainWindow._convert_time` (src/timezones.py lines 616-627).  The
timezone database `db` and the current UTC date `todayBase` (midnight of
that date in epoch minutes) are the ambient inputs the Python code reads
from `pytz` and from the system clock.  If resolving either zone id
raises, the input is returned unchanged. -/
def _convert_time (db : List (String × Timezone)) (todayBase : Int)
    (hour minute : Nat) (from_tz to_tz : String) : Nat × Nat :=
  match lookupZone db from_tz, lookupZone db to_tz with
  | some from_zone, some to_zone =>
    let naive : Int := todayBase + 60 * (hour : Int) + (minute : Int)
    let localized := from_zone.localize naive
    let converted := to_zone.fromutc localized
    (hourOf converted, minuteOf converted)
  | _, _ => (hour, minute)

/-- America/New_York modelled from the IANA database around 2026-03-08,
the US spring-forward date: EST is UTC-5 (-300 minutes), EDT is UTC-4
(-240 minutes), and DST begins at 07:00 UTC on that date.  The epoch is
midnight UTC of 2026-03-08, so the transition instant is minute 420. -/
def newYork2026 : Timezone :=
  { stdOffset := -300, dstOffset := -240, isDstAtUtc := fun u => decide (420 ≤ u) }

/-- UTC: fixed offset zero, no DST. -/
def utcZone : Timezone :=
  { stdOffset := 0, dstOffset := 0, isDstAtUtc := fun _ => false }

/-- Asia/Kolkata modelled from the IANA database: fixed offset UTC+5:30,
no DST. -/
def kolkataZone : Timezone :=
  { stdOffset := 330, dstOffset := 330, isDstAtUtc := fun _ => false }

/-- A concrete timezone database for witnesses and counterexamples, with
the current UTC date taken to be 2026-03-08 (epoch minute 0). -/
def dbMarch2026 : List (String × Timezone) :=
  [("America/New_York", newYork2026), ("UTC", utcZone), ("Asia/Kolkata", kolkataZone)]

/-! ## Location directory -/

/-- The module-level constant `DEFAULT_KNOWN_LOCATIONS`
(src/timezones.py lines 43-54), in source order (Python dicts preserve
insertion order). -/
def DEFAULT_KNOWN_LOCATIONS : List (String × String) :=
  [("New York, USA", "America/New_York"),
   ("London, UK", "Europe/London"),
   ("Dublin, Ireland", "Europe/Dublin"),
   ("Delhi, India", "Asia/Kolkata"),
   ("Tokyo, Japan", "Asia/Tokyo"),
   ("Sydney, Australia", "Australia/Sydney"),
   ("Los Angeles, USA", "America/Los_Angeles"),
   ("Chicago, USA", "America/Chicago"),
   ("Berlin, Germany", "Europe/Berlin"),
   ("Paris, France", "Europe/Paris")]

/-- Whitespace as stripped by the Python `str.strip()` default and
matched by the regex class `\s`, restricted to its ASCII members. -/
def isPySpace (c : Char) : Bool :=
  c == ' ' || c == '\t' || c == '\n' || c == '\r' || c == '\x0b' || c == '\x0c'

/-- Python `str.strip()`: drop leading and trailing whitespace. -/
def pyStrip (cs : List Char) : List Char :=
  ((cs.dropWhile isPySpace).reverse.dropWhile isPySpace).reverse

/-- Python `str.lower()`, restricted to ASCII letters (all characters
appearing in the modelled data are ASCII). -/
def lowerAscii (cs : List Char) : List Char :=
  cs.map (fun c => if 65 ≤ c.toNat ∧ c.toNat ≤ 90 then Char.ofNat (c.toNat + 32) else c)

/-- The loop of `find_timezone_for_location_text` (src/timezones.py
lines 84-88): scan the stored entries in order and return the first
whose lower-cased name equals the normalised text. -/
def findLocLoop (norm : List Char) : List (String × String) → Option (String × String)
  | [] => none
  | (name, tz) :: rest =>
    if lowerAscii name.toList = norm then some (tz, name) else findLocLoop norm rest

/-- `find_timezone_for_location_text` (src/timezones.py lines 79-88).
The Python function returns the pair `(None, None)` on failure, modelled
as `none`. -/
def find_timezone_for_location_text (text : String)
    (known_locations : List (String × String)) : Option (String × String) :=
  findLocLoop (lowerAscii (pyStrip text.toList)) known_locations

/-- JSON values as produced by `json.load`.  Numbers are modelled as
integers; no claim depends on non-integer numerics. -/
inductive PyJson where
  | null : PyJson
  | bool (b : Bool) : PyJson
  | num (n : Int) : PyJson
  | str (s : String) : PyJson
  | arr (xs : List PyJson) : PyJson
  | obj (fields : List (String × PyJson)) : PyJson

/-- The default mapping as a JSON-valued dictionary (string values). -/
def defaultLocationsJson : List (String × PyJson) :=
  DEFAULT_KNOWN_LOCATIONS.map (fun p => (p.1, PyJson.str p.2))

/-- The check the claim describes, following the words of the spec: a
flat string-to-string mapping, that is a JSON object all of whose values
are strings.  The source performs only an `isinstance(data, dict)` check;
this definition exists to be compared against that behaviour. -/
def flatStringToString : PyJson → Bool
  | PyJson.obj fields => fields.all (fun p => match p.2 with
      | PyJson.str _ => true
      | _ => false)
  | _ => false

/-- `load_known_locations` (src/timezones.py lines 57-67).  The storage
source is the outcome of reading `known_locations.json`: `none` when the
file does not exist, `some none` when opening or `json.load` raises
(unreadable or malformed), and `some (some j)` when it parses to the
JSON value `j`.  The parsed value is returned exactly when
`isinstance(data, dict)` holds, i.e. when it is a JSON object; every
other outcome falls through to a copy of the default mapping. -/
def load_known_locations (src : Option (Option PyJson)) : List (String × PyJson) :=
  match src with
  | some (some (PyJson.obj fields)) => fields
  | _ => defaultLocationsJson

/-- `save_known_locations` (src/timezones.py lines 70-76), modelled on a
state `(in-memory dict, stored file contents)`: `json.dump` either
succeeds (`writeOk = true`), replacing the file contents, or raises, in
which case the `except` clause swallows the error and the file is left
as it was.  The function never touches the in-memory dict. -/
def save_known_locations (locations : List (String × String))
    (store : Option (List (String × String))) (writeOk : Bool) :
    List (String × String) × Option (List (String × String)) :=
  if writeOk then (locations, some locations) else (locations, store)

/-! ## Heap model for the fallback copy

Python dicts are mutable heap objects; `load_known_locations` returns
`DEFAULT_KNOWN_LOCATIONS.copy()` in its fallback branch, a fresh
allocation.  To state what the copy buys, a dict heap is modelled as a
list of dict values indexed by address, with the module-level
`DEFAULT_KNOWN_LOCATIONS` object at address 0. -/

/-- The fallback branch of `load_known_locations` at the heap level:
allocate a fresh cell holding a copy of the contents of the module-level
default dict (address 0) and return the new address. -/
def load_fallback (heap : List (List (String × String))) :
    List (List (String × String)) × Nat :=
  (heap ++ [heap.getD 0 []], heap.length)

/-- An arbitrary in-place mutation (add, remove, edit, ...) of the dict
stored at `addr`, as a function on its contents. -/
def mutateHeap (heap : List (List (String × String))) (addr : Nat)
    (f : List (String × String) → List (String × String)) :
    List (List (String × String)) :=
  heap.set addr (f (heap.getD addr []))

/-! ## Manual time-entry parsing

`parse_time_string` (src/timezones.py lines 98-124) delegates to
`datetime.strptime`.  CPython strptime compiles each format directive to
a value-limited regex and requires the whole string to match:
`%H` is `2[0-3]|[0-1]\d|\d`, `%I` is `1[0-2]|0[1-9]|[1-9]`, `%M` is
`[0-5]\d|\d`, `%p` is `AM|PM` case-insensitively, and a literal space in
the format matches one or more whitespace characters.  Because each
two-digit alternative is followed in the format by a non-digit
(`:`, whitespace, a meridiem letter or end of input), ordered-alternation
backtracking never changes the outcome and the matchers below commit to
the first alternative that matches. -/

/-- Match `%H` (`2[0-3]|[0-1]\d|\d`) at the head of the input, returning
the value and the rest. -/
def matchH : List Char → Option (Nat × List Char)
  | c1 :: c2 :: rest =>
    if c1.toNat = 50 ∧ 48 ≤ c2.toNat ∧ c2.toNat ≤ 51 then
      some (20 + (c2.toNat - 48), rest)
    else if (c1.toNat = 48 ∨ c1.toNat = 49) ∧ 48 ≤ c2.toNat ∧ c2.toNat ≤ 57 then
      some (10 * (c1.toNat - 48) + (c2.toNat - 48), rest)
    else if 48 ≤ c1.toNat ∧ c1.toNat ≤ 57 then
      some (c1.toNat - 48, c2 :: rest)
    else none
  | [c1] =>
    if 48 ≤ c1.toNat ∧ c1.toNat ≤ 57 then some (c1.toNat - 48, []) else none
  | [] => none

/-- Match `%M` (`[0-5]\d|\d`) at the head of the input. -/
def matchM : List Char → Option (Nat × List Char)
  | c1 :: c2 :: rest =>
    if (48 ≤ c1.toNat ∧ c1.toNat ≤ 53) ∧ 48 ≤ c2.toNat ∧ c2.toNat ≤ 57 then
      some (10 * (c1.toNat - 48) + (c2.toNat - 48), rest)
    else if 48 ≤ c1.toNat ∧ c1.toNat ≤ 57 then
      some (c1.toNat - 48, c2 :: rest)
    else none
  | [c1] =>
    if 48 ≤ c1.toNat ∧ c1.toNat ≤ 57 then some (c1.toNat - 48, []) else none
  | [] => none

/-- Match `%I` (`1[0-2]|0[1-9]|[1-9]`) at the head of the input. -/
def matchI : List Char → Option (Nat × List Char)
  | c1 :: c2 :: rest =>
    if c1.toNat = 49 ∧ 48 ≤ c2.toNat ∧ c2.toNat ≤ 50 then
      some (10 + (c2.toNat - 48), rest)
    else if c1.toNat = 48 ∧ 49 ≤ c2.toNat ∧ c2.toNat ≤ 57 then
      some (c2.toNat - 48, rest)
    else if 49 ≤ c1.toNat ∧ c1.toNat ≤ 57 then
      some (c1.toNat - 48, c2 :: rest)
    else none
  | [c1] =>
    if 49 ≤ c1.toNat ∧ c1.toNat ≤ 57 then some (c1.toNat - 48, []) else none
  | [] => none

/-- Match `%p` against the entire remaining input, case-insensitively:
`true` for PM, `false` for AM. -/
def matchMeridiem : List Char → Option Bool
  | [c1, c2] =>
    if (c1 = 'a' ∨ c1 = 'A') ∧ (c2 = 'm' ∨ c2 = 'M') then some false
    else if (c1 = 'p' ∨ c1 = 'P') ∧ (c2 = 'm' ∨ c2 = 'M') then some true
    else none
  | _ => none

/-- The 12-to-24-hour adjustment CPython strptime applies to `%I` with
`%p`. -/
def pmAdjust (h12 : Nat) (pm : Bool) : Nat :=
  if pm then (if h12 = 12 then 12 else h12 + 12)
  else (if h12 = 12 then 0 else h12)

/-- `datetime.strptime(s, "%H:%M")`, returning `(hour, minute)`; `none`
models `ValueError`, including the unconverted-data check that the whole
string be consumed. -/
def parse24 (cs : List Char) : Option (Nat × Nat) :=
  match matchH cs with
  | some (h, ':' :: rest2) =>
    match matchM rest2 with
    | some (m, []) => some (h, m)
    | _ => none
  | _ => none

/-- The literal space in the format `"%I:%M %p"` matches one or more
whitespace characters; with `requireSpace = false` (format `"%I:%M%p"`)
nothing is consumed. -/
def skipFmtSpace : Bool → List Char → Option (List Char)
  | false, cs => some cs
  | true, c :: r => if isPySpace c then some (r.dropWhile isPySpace) else none
  | true, [] => none

/-- `datetime.strptime` with format `"%I:%M %p"` when `requireSpace` and
`"%I:%M%p"` otherwise. -/
def parse12 (requireSpace : Bool) (cs : List Char) : Option (Nat × Nat) :=
  match matchI cs with
  | some (h12, ':' :: rest2) =>
    match matchM rest2 with
    | some (m, rest3) =>
      match skipFmtSpace requireSpace rest3 with
      | some rest5 =>
        match matchMeridiem rest5 with
        | some pm => some (pmAdjust h12 pm, m)
        | none => none
      | none => none
    | none => none
  | _ => none

/-- `parse_time_string` (src/timezones.py lines 98-124).  In 12-hour
mode the source also tries the formats `"%I:%M %P"` and `"%I:%MP"`
variants with an upper-case `P` directive; `%P` is not a valid strptime
directive, so those two attempts always raise `ValueError`, are caught,
and never produce a result -- they are omitted here. -/
def parse_time_string (time_str : String) (use_24h : Bool) : Option (Nat × Nat) :=
  let s := pyStrip time_str.toList
  if s = [] then none
  else if use_24h then parse24 s
  else
    match parse12 true s with
    | some r => some r
    | none => parse12 false s

/-- Zero-padded two-digit decimal rendering of `n < 100`, for stating
which strings the parsers accept. -/
def pad2 (n : Nat) : List Char :=
  [Char.ofNat (48 + n / 10), Char.ofNat (48 + n % 10)]

/-! ## Theorems -/

theorem hourOf_lt (w : Int) : hourOf w < 24 := by
  unfold hourOf
  omega

theorem minuteOf_lt (w : Int) : minuteOf w < 60 := by
  unfold minuteOf
  omega

/-- When some offset is consistent for the naive timestamp `n` (the wall
time exists or is merely ambiguous, not in a spring-forward gap),
localizing and mapping back to local time is the identity. -/
theorem fromutc_localize_self (tz : Timezone) (n : Int)
    (hex : tz.offsetAtUtc (n - tz.stdOffset) = tz.stdOffset ∨
           tz.offsetAtUtc (n - tz.dstOffset) = tz.dstOffset) :
    tz.fromutc (tz.localize n) = n := by
  unfold Timezone.localize Timezone.fromutc
  by_cases h1 : tz.offsetAtUtc (n - tz.stdOffset) = tz.stdOffset
  · simp only [h1, if_pos]
    omega
  · rcases hex with hex | hex
    · exact absurd hex h1
    · simp only [h1, if_neg, hex, if_pos, if_false]
      omega

/-- In a zone whose offset function is constant (no transition anywhere
near the date), localize subtracts that constant offset. -/
theorem localize_const (tz : Timezone)
    (hc : ∀ u v : Int, tz.offsetAtUtc u = tz.offsetAtUtc v) (n : Int) :
    tz.localize n = n - tz.offsetAtUtc 0 := by
  have hstd0 : tz.offsetAtUtc (n - tz.stdOffset) = tz.offsetAtUtc 0 := hc _ _
  have hdst0 : tz.offsetAtUtc (n - tz.dstOffset) = tz.offsetAtUtc 0 := hc _ _
  have hmem : tz.offsetAtUtc 0 = tz.stdOffset ∨ tz.offsetAtUtc 0 = tz.dstOffset := by
    unfold Timezone.offsetAtUtc
    by_cases h : tz.isDstAtUtc 0 = true <;> simp [h]
  unfold Timezone.localize
  rw [hstd0, hdst0]
  by_cases hs : tz.offsetAtUtc 0 = tz.stdOffset
  · rw [if_pos hs, hs]
  · rcases hmem with h0 | h0
    · exact absurd h0 hs
    · rw [if_neg hs, if_pos h0, h0]

/-- C1: for every time of day and every pair of resolvable timezone ids,
`_convert_time` constructs the naive timestamp current-UTC-date plus
(hour, minute), interprets it as civil time in the source zone with the
default pytz disambiguation (`localize` with `is_dst=False`), converts
the resulting absolute instant into the destination zone via `fromutc`,
and returns only the resulting hour and minute, discarding seconds and
date. -/
theorem convert_algorithm_correct (db : List (String × Timezone)) (base : Int)
    (h m : Nat) (z1 z2 : String) (A B : Timezone)
    (h1 : lookupZone db z1 = some A) (h2 : lookupZone db z2 = some B) :
    _convert_time db base h m z1 z2 =
      (hourOf (B.fromutc (A.localize (base + 60 * (h : Int) + (m : Int)))),
       minuteOf (B.fromutc (A.localize (base + 60 * (h : Int) + (m : Int))))) ∧
    (_convert_time db base h m z1 z2).1 < 24 ∧
    (_convert_time db base h m z1 z2).2 < 60 := by
  simp only [_convert_time, h1, h2]
  exact ⟨trivial, hourOf_lt _, minuteOf_lt _⟩

/-- Witness for C1 at 23:30 from UTC to Asia/Kolkata on 2026-03-08. -/
theorem convert_algorithm_correct_witness :
    lookupZone dbMarch2026 "UTC" = some utcZone ∧
    lookupZone dbMarch2026 "Asia/Kolkata" = some kolkataZone ∧
    (_convert_time dbMarch2026 0 23 30 "UTC" "Asia/Kolkata" =
      (hourOf (kolkataZone.fromutc (utcZone.localize (0 + 60 * (23 : Int) + (30 : Int)))),
       minuteOf (kolkataZone.fromutc (utcZone.localize (0 + 60 * (23 : Int) + (30 : Int))))) ∧
     (_convert_time dbMarch2026 0 23 30 "UTC" "Asia/Kolkata").1 < 24 ∧
     (_convert_time dbMarch2026 0 23 30 "UTC" "Asia/Kolkata").2 < 60) :=
  ⟨rfl, rfl,
   convert_algorithm_correct dbMarch2026 0 23 30 "UTC" "Asia/Kolkata"
     utcZone kolkataZone rfl rfl⟩

/-- C2 is refuted on the code: on the US spring-forward date 2026-03-08
the wall time 02:30 does not exist in America/New_York; pytz attaches
the EST offset to it and converting the zone to itself yields 03:30, not
the input.  The identity claim fails for resolvable zones with a DST gap
on the current date. -/
theorem convert_self_gap_not_identity :
    _convert_time dbMarch2026 0 2 30 "America/New_York" "America/New_York" = (3, 30) ∧
    _convert_time dbMarch2026 0 2 30 "America/New_York" "America/New_York" ≠ (2, 30) :=
  ⟨by decide, by decide⟩

/-- C2 (amended): converting a time from a zone to the same zone is the
identity for every wall time for which the zone has a consistent offset
on the current date, i.e. every wall time that exists in the zone that
day (ambiguous fall-back times included; only the spring-forward gap is
excluded). -/
theorem convert_self_identity
    (db : List (String × Timezone)) (base : Int) (h m : Nat) (z : String)
    (tz : Timezone) (hz : lookupZone db z = some tz)
    (hex : tz.offsetAtUtc (base + 60 * (h : Int) + (m : Int) - tz.stdOffset) = tz.stdOffset ∨
           tz.offsetAtUtc (base + 60 * (h : Int) + (m : Int) - tz.dstOffset) = tz.dstOffset)
    (hh : h < 24) (hm : m < 60) (hb : base % 1440 = 0) :
    _convert_time db base h m z z = (h, m) := by
  simp only [_convert_time, hz]
  rw [fromutc_localize_self tz (base + 60 * (h : Int) + (m : Int)) hex]
  simp only [hourOf, minuteOf, Prod.mk.injEq]
  constructor <;> omega

/-- Witness for the amended C2: 14:45 in America/New_York on 2026-03-08
exists (it is past the spring-forward gap) and maps to itself. -/
theorem convert_self_identity_witness :
    lookupZone dbMarch2026 "America/New_York" = some newYork2026 ∧
    (newYork2026.offsetAtUtc (0 + 60 * (14 : Int) + (45 : Int) - newYork2026.stdOffset) =
        newYork2026.stdOffset ∨
     newYork2026.offsetAtUtc (0 + 60 * (14 : Int) + (45 : Int) - newYork2026.dstOffset) =
        newYork2026.dstOffset) ∧
    _convert_time dbMarch2026 0 14 45 "America/New_York" "America/New_York" = (14, 45) :=
  ⟨rfl, Or.inr (by decide),
   convert_self_identity dbMarch2026 0 14 45 "America/New_York" newYork2026
     rfl (Or.inr (by decide)) (by decide) (by decide) (by decide)⟩

/-- C3: if either timezone id is unresolvable against the database, the
conversion returns the input (hour, minute) unchanged; together with the
totality of the model this is the fail-closed behaviour of the
`try/except` around zone resolution. -/
theorem convert_unresolvable_zone_fallback
    (db : List (String × Timezone)) (base : Int) (h m : Nat) (z1 z2 : String)
    (hfail : lookupZone db z1 = none ∨ lookupZone db z2 = none) :
    _convert_time db base h m z1 z2 = (h, m) := by
  rcases hfail with hf | hf
  · cases hz2 : lookupZone db z2 <;> simp [_convert_time, hf, hz2]
  · cases hz1 : lookupZone db z1 <;> simp [_convert_time, hf, hz1]

/-- Witness for C3: the id Not/AZone does not resolve and the input time
comes back unchanged. -/
theorem convert_unresolvable_zone_fallback_witness :
    (lookupZone dbMarch2026 "Not/AZone" = none ∨ lookupZone dbMarch2026 "UTC" = none) ∧
    _convert_time dbMarch2026 0 9 15 "Not/AZone" "UTC" = (9, 15) :=
  ⟨Or.inl rfl,
   convert_unresolvable_zone_fallback dbMarch2026 0 9 15 "Not/AZone" "UTC" (Or.inl rfl)⟩

/-- C4: for resolvable zone pairs with no intervening DST transition on
the current date (formalised: the offset each zone is at is the same at
every instant), converting there and back reproduces the original time,
even when the intermediate wall clock falls on a different calendar
date. -/
theorem convert_round_trip_no_transition
    (db : List (String × Timezone)) (base : Int) (h m : Nat) (z1 z2 : String)
    (A B : Timezone)
    (h1 : lookupZone db z1 = some A) (h2 : lookupZone db z2 = some B)
    (hA : ∀ u v : Int, A.offsetAtUtc u = A.offsetAtUtc v)
    (hB : ∀ u v : Int, B.offsetAtUtc u = B.offsetAtUtc v)
    (hh : h < 24) (hm : m < 60) (hb : base % 1440 = 0) :
    _convert_time db base (_convert_time db base h m z1 z2).1
      (_convert_time db base h m z1 z2).2 z2 z1 = (h, m) := by
  obtain ⟨cA, hcA⟩ : ∃ c, ∀ u : Int, A.offsetAtUtc u = c := ⟨A.offsetAtUtc 0, fun u => hA u 0⟩
  obtain ⟨cB, hcB⟩ : ∃ c, ∀ u : Int, B.offsetAtUtc u = c := ⟨B.offsetAtUtc 0, fun u => hB u 0⟩
  simp only [_convert_time, h1, h2, localize_const A hA, localize_const B hB,
    Timezone.fromutc, hcA, hcB, hourOf, minuteOf, Prod.mk.injEq]
  constructor <;> omega

/-- Witness for C4: 23:30 from Asia/Kolkata to UTC and back on
2026-03-08 (the intermediate time 18:00 UTC is on the previous local
date relative to Kolkata midnight). -/
theorem convert_round_trip_no_transition_witness :
    _convert_time dbMarch2026 0
      (_convert_time dbMarch2026 0 23 30 "Asia/Kolkata" "UTC").1
      (_convert_time dbMarch2026 0 23 30 "Asia/Kolkata" "UTC").2
      "UTC" "Asia/Kolkata" = (23, 30) :=
  convert_round_trip_no_transition dbMarch2026 0 23 30 "Asia/Kolkata" "UTC"
    kolkataZone utcZone rfl rfl (fun _ _ => rfl) (fun _ _ => rfl)
    (by decide) (by decide) (by decide)

/-- C5: location lookup trims leading and trailing whitespace, compares
case-insensitively for an exact match against every stored display name
in order, and returns the timezone id of the first match with the stored
original-case name; against the default directory, the two concrete
lookups behave as the spec states. -/
theorem lookup_trim_caseless_first_match :
    (∀ (text : String) (known : List (String × String)),
      find_timezone_for_location_text text known =
        (known.find? (fun p =>
            lowerAscii p.1.toList == lowerAscii (pyStrip text.toList))).map
          (fun p => (p.2, p.1))) ∧
    find_timezone_for_location_text "  delhi, india  " DEFAULT_KNOWN_LOCATIONS =
      some ("Asia/Kolkata", "Delhi, India") ∧
    find_timezone_for_location_text "Atlantis" DEFAULT_KNOWN_LOCATIONS = none := by
  refine ⟨fun text known => ?_, by decide, by decide⟩
  unfold find_timezone_for_location_text
  induction known with
  | nil => rfl
  | cons p rest ih =>
    obtain ⟨name, tz⟩ := p
    simp only [findLocLoop]
    by_cases hmatch : lowerAscii name.toList = lowerAscii (pyStrip text.toList)
    · rw [if_pos hmatch, List.find?_cons_of_pos _ (by simpa using hmatch)]
      rfl
    · rw [if_neg hmatch, List.find?_cons_of_neg _ (by simpa using hmatch), ih]

/-- C6 is refuted: a source that deserializes to a JSON object with a
non-string value is not a flat string-to-string mapping, yet
`load_known_locations` returns it as loaded instead of the ten-entry
default set, because the source checks only `isinstance(data, dict)`. -/
theorem load_nonstring_object_kept :
    flatStringToString (PyJson.obj [("a", PyJson.num 1)]) = false ∧
    load_known_locations (some (some (PyJson.obj [("a", PyJson.num 1)]))) =
      [("a", PyJson.num 1)] ∧
    load_known_locations (some (some (PyJson.obj [("a", PyJson.num 1)]))) ≠
      defaultLocationsJson := by
  refine ⟨rfl, rfl, fun hEq => ?_⟩
  have hlen := congrArg List.length hEq
  simp [load_known_locations, defaultLocationsJson, DEFAULT_KNOWN_LOCATIONS] at hlen

/-- C6 (amended): `load_known_locations` returns exactly the fixed
ten-entry default mapping whenever the storage source is missing,
unreadable, or does not deserialize to a mapping (a JSON object), and
returns the loaded mapping for any JSON object, string-valued or not. -/
theorem load_or_default_object :
    load_known_locations none = defaultLocationsJson ∧
    load_known_locations (some none) = defaultLocationsJson ∧
    (∀ fields, load_known_locations (some (some (PyJson.obj fields))) = fields) ∧
    (∀ j : PyJson, (∀ fields, j ≠ PyJson.obj fields) →
      load_known_locations (some (some j)) = defaultLocationsJson) ∧
    defaultLocationsJson =
      [("New York, USA", PyJson.str "America/New_York"),
       ("London, UK", PyJson.str "Europe/London"),
       ("Dublin, Ireland", PyJson.str "Europe/Dublin"),
       ("Delhi, India", PyJson.str "Asia/Kolkata"),
       ("Tokyo, Japan", PyJson.str "Asia/Tokyo"),
       ("Sydney, Australia", PyJson.str "Australia/Sydney"),
       ("Los Angeles, USA", PyJson.str "America/Los_Angeles"),
       ("Chicago, USA", PyJson.str "America/Chicago"),
       ("Berlin, Germany", PyJson.str "Europe/Berlin"),
       ("Paris, France", PyJson.str "Europe/Paris")] := by
  refine ⟨rfl, rfl, fun fields => rfl, fun j hj => ?_, rfl⟩
  cases j with
  | obj fields => exact absurd rfl (hj fields)
  | null => rfl
  | bool b => rfl
  | num n => rfl
  | str s => rfl
  | arr xs => rfl

/-- Witness for the amended C6: a JSON array is not an object and falls
back to the default set. -/
theorem load_or_default_object_witness :
    load_known_locations (some (some (PyJson.arr []))) = defaultLocationsJson :=
  load_or_default_object.2.2.2.1 (PyJson.arr [])
    (fun _ h => PyJson.noConfusion h)

/-- C8: saving the directory is best-effort: the in-memory mapping is
returned unchanged whatever the write outcome, a failed write leaves the
stored contents as they were, and a successful write stores the
serialized mapping; the model is total, mirroring the `except` clause
that swallows every storage failure. -/
theorem save_best_effort (locations : List (String × String))
    (store : Option (List (String × String))) (writeOk : Bool) :
    (save_known_locations locations store writeOk).1 = locations ∧
    (save_known_locations locations store false).2 = store ∧
    (save_known_locations locations store true).2 = some locations := by
  unfold save_known_locations
  cases writeOk <;> simp

/-- C10: the fallback load allocates a fresh copy of the built-in
default dict (a new address, not address 0 where the module-level
constant lives), so an arbitrary later mutation of the returned dict
leaves the built-in default unchanged and a subsequent fallback load
still yields the same ten entries. -/
theorem load_fallback_fresh_copy
    (f : List (String × String) → List (String × String)) :
    (load_fallback [DEFAULT_KNOWN_LOCATIONS]).2 ≠ 0 ∧
    (mutateHeap (load_fallback [DEFAULT_KNOWN_LOCATIONS]).1
        (load_fallback [DEFAULT_KNOWN_LOCATIONS]).2 f).getD 0 [] =
      DEFAULT_KNOWN_LOCATIONS ∧
    ((load_fallback (mutateHeap (load_fallback [DEFAULT_KNOWN_LOCATIONS]).1
          (load_fallback [DEFAULT_KNOWN_LOCATIONS]).2 f)).1.getD
        (load_fallback (mutateHeap (load_fallback [DEFAULT_KNOWN_LOCATIONS]).1
          (load_fallback [DEFAULT_KNOWN_LOCATIONS]).2 f)).2 []) =
      DEFAULT_KNOWN_LOCATIONS :=
  ⟨by decide, rfl, rfl⟩

theorem matchH_lt : ∀ {cs : List Char} {h : Nat} {rest : List Char},
    matchH cs = some (h, rest) → h < 24 := by
  intro cs h rest hc
  unfold matchH at hc
  split at hc
  · split_ifs at hc with h1 h2 h3 <;>
      (injection hc with hpr; injection hpr with hv hr; omega)
  · split_ifs at hc with h1
    injection hc with hpr; injection hpr with hv hr; omega
  · exact Option.noConfusion hc

theorem matchM_lt : ∀ {cs : List Char} {m : Nat} {rest : List Char},
    matchM cs = some (m, rest) → m < 60 := by
  intro cs m rest hc
  unfold matchM at hc
  split at hc
  · split_ifs at hc with h1 h2 <;>
      (injection hc with hpr; injection hpr with hv hr; omega)
  · split_ifs at hc with h1
    injection hc with hpr; injection hpr with hv hr; omega
  · exact Option.noConfusion hc

theorem matchI_bounds : ∀ {cs : List Char} {h12 : Nat} {rest : List Char},
    matchI cs = some (h12, rest) → 1 ≤ h12 ∧ h12 ≤ 12 := by
  intro cs h12 rest hc
  unfold matchI at hc
  split at hc
  · split_ifs at hc with h1 h2 h3 <;>
      (injection hc with hpr; injection hpr with hv hr; omega)
  · split_ifs at hc with h1
    injection hc with hpr; injection hpr with hv hr; omega
  · exact Option.noConfusion hc

theorem pmAdjust_lt {h12 : Nat} (pm : Bool) (hlo : 1 ≤ h12) (hhi : h12 ≤ 12) :
    pmAdjust h12 pm < 24 := by
  unfold pmAdjust
  cases pm <;> split_ifs <;> omega

theorem parse24_bounds : ∀ {cs : List Char} {h m : Nat},
    parse24 cs = some (h, m) → h < 24 ∧ m < 60 := by
  intro cs h m hp
  unfold parse24 at hp
  split at hp
  · rename_i h1 rest2 heqH
    split at hp
    · rename_i m1 heqM
      injection hp with hpr
      injection hpr with hh hm
      subst hh; subst hm
      exact ⟨matchH_lt heqH, matchM_lt heqM⟩
    · exact Option.noConfusion hp
  · exact Option.noConfusion hp

theorem parse12_bounds : ∀ {sp : Bool} {cs : List Char} {h m : Nat},
    parse12 sp cs = some (h, m) → h < 24 ∧ m < 60 := by
  intro sp cs h m hp
  unfold parse12 at hp
  split at hp
  · rename_i h12 rest2 heqI
    split at hp
    · rename_i m1 rest3 heqM
      split at hp
      · rename_i rest5 heqS
        split at hp
        · rename_i pm heqP
          injection hp with hpr
          injection hpr with hh hm
          subst hh; subst hm
          obtain ⟨hlo, hhi⟩ := matchI_bounds heqI
          exact ⟨pmAdjust_lt pm hlo hhi, matchM_lt heqM⟩
        · exact Option.noConfusion hp
      · exact Option.noConfusion hp
    · exact Option.noConfusion hp
  · exact Option.noConfusion hp

theorem pyStrip_nil_of_all_space {cs : List Char}
    (hws : ∀ c ∈ cs, isPySpace c = true) : pyStrip cs = [] := by
  unfold pyStrip
  rw [List.dropWhile_eq_nil_iff.mpr hws]
  rfl

/-- C7: manual time-entry parsing accepts 24-hour HH:MM input and the
12-hour variants with case-insensitive meridiem, with or without a space
before the meridiem (the 24-hour format in 24-hour mode, the 12-hour
formats in 12-hour mode, matching the single format argument the source
passes per mode; the general 12-hour statements write the 1-12 hour as
k+1).  In particular both spellings of 11:45 in the evening parse to
(23, 45), 25:00 fails in both modes, and unparseable input yields no
result. -/
theorem parse_time_formats :
    (∀ h : Nat, h < 24 → ∀ m : Nat, m < 60 →
      parse_time_string (String.mk (pad2 h ++ ':' :: pad2 m)) true = some (h, m)) ∧
    (∀ k : Nat, k < 12 → ∀ m : Nat, m < 60 →
      parse_time_string
          (String.mk (pad2 (k + 1) ++ ':' :: pad2 m ++ [' ', 'P', 'M'])) false =
        some (pmAdjust (k + 1) true, m) ∧
      parse_time_string
          (String.mk (pad2 (k + 1) ++ ':' :: pad2 m ++ ['p', 'm'])) false =
        some (pmAdjust (k + 1) true, m) ∧
      parse_time_string
          (String.mk (pad2 (k + 1) ++ ':' :: pad2 m ++ [' ', 'a', 'M'])) false =
        some (pmAdjust (k + 1) false, m) ∧
      parse_time_string
          (String.mk (pad2 (k + 1) ++ ':' :: pad2 m ++ ['A', 'm'])) false =
        some (pmAdjust (k + 1) false, m)) ∧
    parse_time_string "11:45pm" false = some (23, 45) ∧
    parse_time_string "11:45 PM" false = some (23, 45) ∧
    parse_time_string "25:00" true = none ∧
    parse_time_string "25:00" false = none ∧
    parse_time_string "noon" true = none ∧
    parse_time_string "noon" false = none :=
  ⟨by decide, by decide, by decide, by decide, by decide, by decide, by decide, by decide⟩

/-- Witness for C7 at 07:05 in 24-hour mode and 12:30 PM in 12-hour
mode. -/
theorem parse_time_formats_witness :
    parse_time_string (String.mk (pad2 7 ++ ':' :: pad2 5)) true = some (7, 5) ∧
    parse_time_string
        (String.mk (pad2 (11 + 1) ++ ':' :: pad2 30 ++ [' ', 'P', 'M'])) false =
      some (pmAdjust (11 + 1) true, 30) :=
  ⟨parse_time_formats.1 7 (by decide) 5 (by decide),
   (parse_time_formats.2.1 11 (by decide) 30 (by decide)).1⟩

/-- C9: in either time-format mode, whenever `parse_time_string` returns
a result the hour is in 0-23 and the minute in 0-59, and an empty or
whitespace-only input always yields no result. -/
theorem parse_time_result_bounds :
    (∀ (s : String) (mode : Bool) (h m : Nat),
      parse_time_string s mode = some (h, m) → h < 24 ∧ m < 60) ∧
    (∀ (s : String) (mode : Bool), (∀ c ∈ s.toList, isPySpace c = true) →
      parse_time_string s mode = none) := by
  constructor
  · intro s mode h m hp
    unfold parse_time_string at hp
    dsimp only at hp
    split_ifs at hp with hnil h24
    · exact parse24_bounds hp
    · split at hp
      · rename_i r heq12
        injection hp with hpr
        subst hpr
        exact parse12_bounds heq12
      · exact parse12_bounds hp
  · intro s mode hws
    unfold parse_time_string
    rw [pyStrip_nil_of_all_space hws]
    simp

/-- Witness for C9: a successful parse of 11:45pm has in-range
components, and a whitespace-only entry parses to nothing. -/
theorem parse_time_result_bounds_witness :
    (23 < 24 ∧ 45 < 60) ∧ parse_time_string "   " true = none :=
  ⟨parse_time_result_bounds.1 "11:45pm" false 23 45 (by decide),
   parse_time_result_bounds.2 "   " true (by decide)⟩

end Timezones
